import Mathlib

/-!
Shallow embedding of the chat-request handler of `src/python/main.py`
(the `/chat` endpoint of the AI Chat Service) and proofs of the
specification's claims about it.

The handler's pure core — prompt assembly and error classification — is
translated function by function; the external generation call
(`model.generate_content`) is abstracted as an oracle argument, and the
list of calls made to it is returned alongside the HTTP outcome so that
call-count properties can be stated.
-/

/-- One turn of conversation history: the `ChatMessage` pydantic model
(main.py lines 38-41). -/
structure ChatMessage where
  role : String
  content : String
  timestamp : Option String := none
  deriving Repr, DecidableEq

/-- The request body of `POST /chat`: the `ChatRequest` pydantic model
(main.py lines 43-48). `none` models an omitted optional field. -/
structure ChatRequest where
  message : String
  history : List ChatMessage := []
  search_context : Option String := none
  user_id : Option String := none
  system_prompt : Option String := none
  deriving Repr, DecidableEq

/-- The response body of `POST /chat`: the `ChatResponse` pydantic model
(main.py lines 50-53). -/
structure ChatResponse where
  response : String
  status : String := "success"
  error : Option String := none
  deriving Repr, DecidableEq

/-- Python truthiness of an optional string: `None` and the empty string
are falsy, every other string is truthy. -/
def pyTruthy : Option String → Bool
  | none => false
  | some s => s ≠ ""

/-- Python `str.lower()`, modelled as character-wise ASCII lowering (the
error texts classified by the handler are ASCII). -/
def pyLower (s : String) : String := ⟨s.data.map Char.toLower⟩

/-- Python's substring test `needle in hay`. -/
def pyContains (hay needle : String) : Bool := decide (needle.data <:+: hay.data)

/-- Python's `hay.startswith(p)` / f-string role-tag placement test. -/
def pyStartsWith (s p : String) : Bool := decide (p.data <+: s.data)

/-- Process configuration read from the environment: `GEMINI_API_KEY`
(main.py line 32) and `GEMINI_MODEL` (line 108). `none` models an unset
variable. -/
structure Env where
  gemini_api_key : Option String := none
  gemini_model : Option String := none

/-- The arguments of one call to the external generation API: model name
(line 108-109), prompt (line 117) and the `GenerationConfig` fields
`max_output_tokens` and `temperature` (lines 111-114). -/
structure GenCall where
  model_name : String
  prompt : String
  max_output_tokens : Nat
  temperature : Rat
  deriving Repr, DecidableEq

/-- The default system prompt: the triple-quoted literal at main.py
lines 73-77, transcribed byte for byte (leading newline, 12-space
indents, the trailing spaces after the first two sentences). -/
def default_system_prompt : String :=
  "\n            You are a helpful AI assistant that answers questions based on provided context. \n            If search context is provided, use it to give accurate and detailed answers. \n            If no context is provided or it\x27s not relevant, provide helpful responses based on your knowledge.\n            Be conversational and friendly."

/-- Resolution of the effective system prompt, `request.system_prompt or
<default>` (line 73): Python `or` takes the default whenever the field is
absent or the empty string. -/
def effective_system_prompt (request : ChatRequest) : String :=
  match request.system_prompt with
  | some s => if s = "" then default_system_prompt else s
  | none => default_system_prompt

/-- Rendering of one history message, lines 87-88: role `user` maps to the
tag `Human`, any other role to `Assistant`. -/
def render_history_message (msg : ChatMessage) : String :=
  (if msg.role = "user" then "Human" else "Assistant") ++ ": " ++ msg.content

/-- The history window `request.history[-10:]` (line 86): for a list of
length at most ten this is the whole list, otherwise the last ten
elements. -/
def last_ten (history : List ChatMessage) : List ChatMessage :=
  history.drop (history.length - 10)

/-- The history segments appended to `conversation_parts` by the loop at
lines 86-88. -/
def history_segments (request : ChatRequest) : List String :=
  (last_ten request.history).map render_history_message

/-- The closing instruction sentence of the search-context template
(line 97), without its trailing period. -/
def search_context_instruction : String :=
  "Please answer the question using the provided search context when relevant"

/-- The current-turn text `current_message` (lines 91-97): when
`search_context` is truthy the message is wrapped in the f-string template
of lines 93-97 (transcribed byte for byte, written as a concatenation so
that each interpolated field is its own operand); otherwise the message is
used unmodified. -/
def current_message_of (request : ChatRequest) : String :=
  if pyTruthy request.search_context then
    "Question: " ++ request.message ++
      "\n            # Search Context:\n            # " ++
      request.search_context.getD "" ++
      "\n\n            # " ++ search_context_instruction ++ "."
  else
    request.message

/-- The final prompt segment appended at line 99. -/
def final_segment (request : ChatRequest) : String :=
  "Human: " ++ current_message_of request

/-- The ordered list `conversation_parts` (lines 80-99): system segment,
then the windowed history, then the current turn. -/
def conversation_parts (request : ChatRequest) : List String :=
  ("System: " ++ effective_system_prompt request) ::
    history_segments request ++ [final_segment request]

/-- The assembled prompt `full_prompt` (line 102): all segments joined
with a blank-line separator. -/
def full_prompt (request : ChatRequest) : String :=
  String.intercalate "\n\n" (conversation_parts request)

/-- The fixed user-facing apology returned on an absorbed upstream failure
(line 133). -/
def apology : String :=
  "I\x27m sorry, I\x27m having trouble connecting to the AI service right now. Please try again later."

/-- Stringification of the `HTTPException(status_code=500, detail=\"Gemini
API key not configured\")` raised at line 70, per Starlette's
`HTTPException.__str__`, which renders `\"{status_code}: {detail}\"`. -/
def missing_key_exception_text : String := "500: Gemini API key not configured"

/-- The error classifier of the `except` block (line 130):
`\"API\" in str(e) or \"quota\" in str(e).lower()`. Note the `API` test is
case-sensitive; only the `quota` test lowercases the text first. -/
def is_upstream_error (s : String) : Bool :=
  pyContains s "API" || pyContains (pyLower s) "quota"

/-- The outcome of one `/chat` request as seen by the HTTP client: either
an HTTP 200 with a `ChatResponse` body, or an HTTP error status with a
`detail` string (FastAPI renders a raised `HTTPException` as
`{\"detail\": ...}`). -/
inductive ChatResult where
  | ok (body : ChatResponse)
  | httpError (status : Nat) (detail : String)
  deriving Repr, DecidableEq

/-- The `except Exception` block (lines 129-139), applied to the text of
the caught exception: upstream-looking errors are absorbed into an HTTP
200 `ChatResponse` with status `error`, the raw text in `error` and the
fixed apology in `response`; anything else is re-raised as HTTP 500 with
detail `Internal server error: <text>`. -/
def handle_exception (s : String) : ChatResult :=
  if is_upstream_error s then
    .ok ⟨apology, "error", some s⟩
  else
    .httpError 500 ("Internal server error: " ++ s)

/-- The single generation call the handler performs when it reaches
lines 108-119: model name from `GEMINI_MODEL` with default
`gemini-1.5-pro`, the assembled prompt, `max_output_tokens=1000` and
`temperature=0.7`. -/
def gen_call_of (env : Env) (request : ChatRequest) : GenCall :=
  ⟨env.gemini_model.getD "gemini-1.5-pro", full_prompt request, 1000, 7/10⟩

/-- The `/chat` handler `chat_endpoint` (lines 63-139). The external
`model.generate_content` call is the oracle `gen`, returning either the
generated text or the text of the exception it raises; the second
component of the result records every generation call performed. The
missing-credential `HTTPException` of line 70 is raised inside the `try`
block, so control flows to the `except` block with that exception's text
and no generation call is made. -/
def chat_endpoint (env : Env) (gen : GenCall → Except String String)
    (request : ChatRequest) : ChatResult × List GenCall :=
  if pyTruthy env.gemini_api_key = false then
    (handle_exception missing_key_exception_text, [])
  else
    match gen (gen_call_of env request) with
    | .ok text => (.ok ⟨text, "success", none⟩, [gen_call_of env request])
    | .error e => (handle_exception e, [gen_call_of env request])

/-- Erasure of the timestamp field of a history message: two requests
differ only in `user_id` and timestamps exactly when their messages,
scrubbed histories, search contexts and system prompts agree. -/
def scrub_message (msg : ChatMessage) : ChatMessage := ⟨msg.role, msg.content, none⟩

/-! Helper lemmas about the string model. -/

theorem data_append (a b : String) : (a ++ b).data = a.data ++ b.data := rfl

theorem sub_preserved_by_map (f : Char → Char) {l₁ l₂ : List Char} (h : l₁ <:+: l₂) :
    l₁.map f <:+: l₂.map f := by
  obtain ⟨s, t, rfl⟩ := h
  exact ⟨s.map f, t.map f, by simp⟩

theorem pyContains_append_right (a b : String) : pyContains (a ++ b) b = true :=
  decide_eq_true ⟨a.data, [], by simp [data_append]⟩

theorem pyContains_api_of_upper {s : String}
    (h : pyContains s "API" = true) : pyContains (pyLower s) "api" = true := by
  have h1 : "API".data <:+: s.data := of_decide_eq_true h
  have h2 := sub_preserved_by_map Char.toLower h1
  have h3 : "API".data.map Char.toLower = "api".data := by decide
  exact decide_eq_true (h3 ▸ h2)

theorem upstream_false_of_insensitive {s : String}
    (hapi : pyContains (pyLower s) "api" = false)
    (hquota : pyContains (pyLower s) "quota" = false) :
    is_upstream_error s = false := by
  have hAPI : pyContains s "API" = false := by
    cases hA : pyContains s "API" with
    | false => rfl
    | true => rw [pyContains_api_of_upper hA] at hapi; cases hapi
  have hq : pyContains (pyLower s) "quota" = false := hquota
  simp [is_upstream_error, hAPI, hq]

/-! Claim theorems. -/

/-- C1 (code bug): when the generation-provider credential is absent, the
handler does short-circuit before assembling the prompt and performs zero
generation calls, but it does NOT fail with HTTP 500: the
`HTTPException(500, "Gemini API key not configured")` raised at line 70 is
caught by the handler's own blanket `except Exception` at line 129, and
because its text contains the substring `API`, it is absorbed into an HTTP
200 `ChatResponse` with status `error`. -/
theorem C1_missing_credential_goes_to_except_block
    (model : Option String) (gen : GenCall → Except String String)
    (request : ChatRequest) :
    chat_endpoint ⟨none, model⟩ gen request
      = (ChatResult.ok ⟨apology, "error", some missing_key_exception_text⟩,
         ([] : List GenCall)) := rfl

/-- C2 counterexample: an exception whose text contains `api` only in lower
case satisfies the claim's case-insensitive condition, yet the handler does
not return HTTP 200 with a ChatResponse — it raises HTTP 500, because the
code's `"API" in str(e)` test is case-sensitive. -/
theorem C2_counterexample :
    pyContains (pyLower "api rate limit exceeded") "api" = true ∧
    (chat_endpoint ⟨some "key", none⟩ (fun _ => Except.error "api rate limit exceeded")
        ⟨"hi", [], none, none, none⟩).fst
      = ChatResult.httpError 500 "Internal server error: api rate limit exceeded" :=
  ⟨by decide, rfl⟩

/-- C2 (amended): an exception raised during handling is absorbed into an
HTTP 200 `ChatResponse{status: error, response: apology, error: raw text}`
when its text contains `API` case-SENSITIVELY or `quota`
case-insensitively; in particular an error message containing `quota` in
any letter case yields HTTP 200, status `error`, and the error field equal
to the raised message text. -/
theorem C2_upstream_error_absorbed (env : Env) (gen : GenCall → Except String String)
    (request : ChatRequest) (e : String)
    (hkey : pyTruthy env.gemini_api_key = true)
    (hgen : gen (gen_call_of env request) = Except.error e)
    (hclass : pyContains e "API" = true ∨ pyContains (pyLower e) "quota" = true) :
    (chat_endpoint env gen request).fst
      = ChatResult.ok ⟨apology, "error", some e⟩ := by
  have hup : is_upstream_error e = true := by
    rcases hclass with h | h <;> simp [is_upstream_error, h]
  simp [chat_endpoint, hkey, hgen, handle_exception, hup]

/-- C2 witness: a concrete upstream failure whose text contains `quota`
with a capital letter is absorbed as the amended claim states. -/
theorem C2_upstream_error_absorbed_witness :
    pyContains (pyLower "Quota exceeded for project") "quota" = true ∧
    (chat_endpoint ⟨some "key", none⟩ (fun _ => Except.error "Quota exceeded for project")
        ⟨"hi", [], none, none, none⟩).fst
      = ChatResult.ok ⟨apology, "error", some "Quota exceeded for project"⟩ :=
  ⟨by decide,
   C2_upstream_error_absorbed ⟨some "key", none⟩ _ ⟨"hi", [], none, none, none⟩
     "Quota exceeded for project" (by decide) rfl (Or.inr (by decide))⟩

/-- C3: an exception whose text contains neither `api` nor `quota`
case-insensitively propagates as HTTP 500 with the exception text inside
the detail field, and no `ChatResponse` body is produced on this path. -/
theorem C3_internal_error_propagates_500 (env : Env)
    (gen : GenCall → Except String String) (request : ChatRequest) (e : String)
    (hkey : pyTruthy env.gemini_api_key = true)
    (hgen : gen (gen_call_of env request) = Except.error e)
    (hapi : pyContains (pyLower e) "api" = false)
    (hquota : pyContains (pyLower e) "quota" = false) :
    (chat_endpoint env gen request).fst
      = ChatResult.httpError 500 ("Internal server error: " ++ e) ∧
    pyContains ("Internal server error: " ++ e) e = true ∧
    ∀ body, (chat_endpoint env gen request).fst ≠ ChatResult.ok body := by
  have hup := upstream_false_of_insensitive hapi hquota
  have h1 : (chat_endpoint env gen request).fst
      = ChatResult.httpError 500 ("Internal server error: " ++ e) := by
    simp [chat_endpoint, hkey, hgen, handle_exception, hup]
  refine ⟨h1, pyContains_append_right "Internal server error: " e, ?_⟩
  intro body
  rw [h1]
  intro hcontra
  cases hcontra

/-- C3 witness: a concrete internal fault (text without `api` or `quota`)
yields HTTP 500 carrying the exception text. -/
theorem C3_internal_error_propagates_500_witness :
    (chat_endpoint ⟨some "key", none⟩ (fun _ => Except.error "division by zero")
        ⟨"hi", [], none, none, none⟩).fst
      = ChatResult.httpError 500 ("Internal server error: " ++ "division by zero") :=
  (C3_internal_error_propagates_500 ⟨some "key", none⟩ _ ⟨"hi", [], none, none, none⟩
    "division by zero" (by decide) rfl (by decide) (by decide)).1

/-- C4: the history segments of the assembled prompt are exactly the
rendering of the last ten history entries in their original relative
order — the whole history when it has at most ten entries, and exactly
ten segments (the last ten entries, older ones dropped) when it is
longer. -/
theorem C4_history_window (request : ChatRequest) :
    history_segments request
      = ((request.history.reverse.take 10).reverse).map render_history_message ∧
    (history_segments request).length = min 10 request.history.length ∧
    (request.history.length ≤ 10 →
      history_segments request = request.history.map render_history_message) ∧
    (10 < request.history.length → (history_segments request).length = 10) := by
  have hwin : last_ten request.history = (request.history.reverse.take 10).reverse := by
    have := List.rtake_eq_reverse_take_reverse request.history 10
    simpa [List.rtake, last_ten] using this
  have hlen : (history_segments request).length = min 10 request.history.length := by
    simp [history_segments, last_ten]
    omega
  refine ⟨by rw [history_segments, hwin], hlen, ?_, ?_⟩
  · intro h
    have : request.history.length - 10 = 0 := by omega
    simp [history_segments, last_ten, this]
  · intro h
    rw [hlen]
    omega

/-- C4 witness: with an eleven-entry history, exactly ten segments
appear. -/
theorem C4_history_window_witness :
    10 < (List.replicate 11 (ChatMessage.mk "user" "m" none)).length ∧
    (history_segments
        ⟨"q", List.replicate 11 (ChatMessage.mk "user" "m" none), none, none, none⟩).length
      = 10 :=
  ⟨by decide,
   (C4_history_window
      ⟨"q", List.replicate 11 (ChatMessage.mk "user" "m" none), none, none, none⟩).2.2.2
     (by decide)⟩

/-- C5: when the search context is present and non-empty, the final
prompt segment contains the literal message, the literal context text and
the instruction phrase, and starts with the tag `Human`; when the search
context is empty or absent, the final segment is exactly
`Human: <message>`. -/
theorem C5_current_turn_segment (request : ChatRequest) :
    (∀ ctx, request.search_context = some ctx → ctx ≠ "" →
      pyContains (final_segment request) request.message = true ∧
      pyContains (final_segment request) ctx = true ∧
      pyContains (final_segment request) search_context_instruction = true ∧
      pyStartsWith (final_segment request) "Human" = true) ∧
    (pyTruthy request.search_context = false →
      final_segment request = "Human: " ++ request.message) := by
  constructor
  · intro ctx hctx hne
    have hF : final_segment request
        = "Human: " ++ ("Question: " ++ request.message ++
            "\n            # Search Context:\n            # " ++ ctx ++
            "\n\n            # " ++ search_context_instruction ++ ".") := by
      simp [final_segment, current_message_of, hctx, pyTruthy, hne]
    refine ⟨?_, ?_, ?_, ?_⟩ <;> rw [hF]
    · exact decide_eq_true
        ⟨"Human: ".data ++ "Question: ".data,
         "\n            # Search Context:\n            # ".data ++ ctx.data ++
           "\n\n            # ".data ++ search_context_instruction.data ++ ".".data,
         by simp [data_append]⟩
    · exact decide_eq_true
        ⟨"Human: ".data ++ "Question: ".data ++ request.message.data ++
           "\n            # Search Context:\n            # ".data,
         "\n\n            # ".data ++ search_context_instruction.data ++ ".".data,
         by simp [data_append]⟩
    · exact decide_eq_true
        ⟨"Human: ".data ++ "Question: ".data ++ request.message.data ++
           "\n            # Search Context:\n            # ".data ++ ctx.data ++
           "\n\n            # ".data,
         ".".data,
         by simp [data_append]⟩
    · have hsplit : ("Human: " : String) = "Human" ++ ": " := rfl
      rw [hsplit]
      exact decide_eq_true
        ⟨": ".data ++ ("Question: " ++ request.message ++
            "\n            # Search Context:\n            # " ++ ctx ++
            "\n\n            # " ++ search_context_instruction ++ ".").data,
         by simp [data_append]⟩
  · intro h
    simp [final_segment, current_message_of, h]

/-- C5 witness: concrete requests with and without a search context. -/
theorem C5_current_turn_segment_witness :
    (pyContains (final_segment ⟨"what is x", [], some "ctxt", none, none⟩) "what is x" = true ∧
     pyContains (final_segment ⟨"what is x", [], some "ctxt", none, none⟩) "ctxt" = true ∧
     pyContains (final_segment ⟨"what is x", [], some "ctxt", none, none⟩)
       search_context_instruction = true ∧
     pyStartsWith (final_segment ⟨"what is x", [], some "ctxt", none, none⟩) "Human" = true) ∧
    final_segment ⟨"hello", [], none, none, none⟩ = "Human: " ++ "hello" :=
  ⟨(C5_current_turn_segment ⟨"what is x", [], some "ctxt", none, none⟩).1 "ctxt" rfl
     (by decide),
   (C5_current_turn_segment ⟨"hello", [], none, none, none⟩).2 (by decide)⟩

/-- C6: the role-to-tag mapping is total: role `user` renders with tag
`Human`, any other role value renders with tag `Assistant`, each emitted
as `<Role>: <content>`. -/
theorem C6_role_mapping_total (msg : ChatMessage) :
    (msg.role = "user" → render_history_message msg = "Human: " ++ msg.content) ∧
    (msg.role ≠ "user" → render_history_message msg = "Assistant: " ++ msg.content) := by
  constructor
  · intro h
    simp [render_history_message, h]
  · intro h
    simp [render_history_message, h]

/-- C6 witness: concrete turns with role `user`, role `assistant` and an
unrecognized role. -/
theorem C6_role_mapping_total_witness :
    render_history_message ⟨"user", "hi", none⟩ = "Human: " ++ "hi" ∧
    render_history_message ⟨"assistant", "ok", none⟩ = "Assistant: " ++ "ok" ∧
    render_history_message ⟨"tool", "x", none⟩ = "Assistant: " ++ "x" :=
  ⟨(C6_role_mapping_total ⟨"user", "hi", none⟩).1 rfl,
   (C6_role_mapping_total ⟨"assistant", "ok", none⟩).2 (by decide),
   (C6_role_mapping_total ⟨"tool", "x", none⟩).2 (by decide)⟩

/-- C7: with empty history and empty search context the assembled prompt
is exactly two segments — system then `Human: <message>` — joined by the
blank-line separator. -/
theorem C7_minimal_prompt (request : ChatRequest)
    (hh : request.history = [])
    (hc : pyTruthy request.search_context = false) :
    conversation_parts request
      = ["System: " ++ effective_system_prompt request,
         "Human: " ++ request.message] ∧
    full_prompt request
      = ("System: " ++ effective_system_prompt request) ++ "\n\n" ++
        ("Human: " ++ request.message) := by
  have hfin : final_segment request = "Human: " ++ request.message := by
    simp [final_segment, current_message_of, hc]
  have hparts : conversation_parts request
      = ["System: " ++ effective_system_prompt request,
         "Human: " ++ request.message] := by
    simp [conversation_parts, history_segments, last_ten, hh, hfin]
  exact ⟨hparts, by rw [full_prompt, hparts]; rfl⟩

/-- C7 witness: a concrete request with no history and no search
context. -/
theorem C7_minimal_prompt_witness :
    conversation_parts ⟨"hello", [], none, none, none⟩
      = ["System: " ++ effective_system_prompt ⟨"hello", [], none, none, none⟩,
         "Human: " ++ "hello"] :=
  (C7_minimal_prompt ⟨"hello", [], none, none, none⟩ rfl (by decide)).1

/-- C8: on the success path the external generation call is invoked
exactly once, with the assembled prompt, the configured model identifier
(defaulting to `gemini-1.5-pro` when none is configured),
`max_output_tokens = 1000` and `temperature = 0.7`; the returned text is
placed unchanged into `ChatResponse{response: text, status: success}`. -/
theorem C8_success_path (env : Env) (gen : GenCall → Except String String)
    (request : ChatRequest) (text : String)
    (hkey : pyTruthy env.gemini_api_key = true)
    (hgen : gen (gen_call_of env request) = Except.ok text) :
    chat_endpoint env gen request
      = (ChatResult.ok ⟨text, "success", none⟩, [gen_call_of env request]) ∧
    (gen_call_of env request).prompt = full_prompt request ∧
    (env.gemini_model = none →
      (gen_call_of env request).model_name = "gemini-1.5-pro") ∧
    (gen_call_of env request).max_output_tokens = 1000 ∧
    (gen_call_of env request).temperature = 7 / 10 := by
  refine ⟨?_, rfl, ?_, rfl, rfl⟩
  · simp [chat_endpoint, hkey, hgen]
  · intro h
    simp [gen_call_of, h]

/-- C8 witness: a concrete successful generation with no configured model
identifier. -/
theorem C8_success_path_witness :
    chat_endpoint ⟨some "key", none⟩ (fun _ => Except.ok "generated text")
        ⟨"hi", [], none, none, none⟩
      = (ChatResult.ok ⟨"generated text", "success", none⟩,
         [gen_call_of ⟨some "key", none⟩ ⟨"hi", [], none, none, none⟩]) ∧
    (gen_call_of ⟨some "key", none⟩ ⟨"hi", [], none, none, none⟩).model_name
      = "gemini-1.5-pro" :=
  ⟨(C8_success_path ⟨some "key", none⟩ _ ⟨"hi", [], none, none, none⟩
      "generated text" (by decide) rfl).1,
   (C8_success_path ⟨some "key", none⟩ (fun _ => Except.ok "generated text")
      ⟨"hi", [], none, none, none⟩ "generated text" (by decide) rfl).2.2.1 rfl⟩

/-- C9: a system_prompt field that is present but empty (and likewise an
absent one) is falsy, so the handler falls back to the fixed default
system prompt and the system segment is never the bare `System: `. -/
theorem C9_empty_system_prompt_fallback (request : ChatRequest)
    (h : pyTruthy request.system_prompt = false) :
    effective_system_prompt request = default_system_prompt ∧
    default_system_prompt ≠ "" ∧
    ("System: " ++ effective_system_prompt request) ≠ "System: " := by
  have h1 : effective_system_prompt request = default_system_prompt := by
    cases hsp : request.system_prompt with
    | none => simp [effective_system_prompt, hsp]
    | some s =>
        rw [hsp] at h
        simp [pyTruthy] at h
        simp [effective_system_prompt, hsp, h]
  refine ⟨h1, by decide, ?_⟩
  rw [h1]
  decide

/-- C9 witness: a concrete request whose system_prompt is the empty
string. -/
theorem C9_empty_system_prompt_fallback_witness :
    effective_system_prompt ⟨"m", [], none, none, some ""⟩ = default_system_prompt ∧
    ("System: " ++ effective_system_prompt ⟨"m", [], none, none, some ""⟩) ≠ "System: " :=
  ⟨(C9_empty_system_prompt_fallback ⟨"m", [], none, none, some ""⟩ (by decide)).1,
   (C9_empty_system_prompt_fallback ⟨"m", [], none, none, some ""⟩ (by decide)).2.2⟩

/-- C10: the assembled prompt does not depend on the request's user_id or
on the timestamps of its history entries — two requests that agree on
message, search context, system prompt, and on their histories up to
timestamps produce identical prompts. -/
theorem C10_prompt_independence (r1 r2 : ChatRequest)
    (hm : r1.message = r2.message)
    (hh : r1.history.map scrub_message = r2.history.map scrub_message)
    (hs : r1.search_context = r2.search_context)
    (hp : r1.system_prompt = r2.system_prompt) :
    full_prompt r1 = full_prompt r2 := by
  have hlen : r1.history.length = r2.history.length := by
    have := congrArg List.length hh
    simpa using this
  have hmap : r1.history.map render_history_message
      = r2.history.map render_history_message := by
    have hcomp : ∀ l : List ChatMessage,
        l.map render_history_message
          = (l.map scrub_message).map render_history_message := by
      intro l
      rw [List.map_map]
      rfl
    rw [hcomp r1.history, hcomp r2.history, hh]
  have hsegs : history_segments r1 = history_segments r2 := by
    unfold history_segments last_ten
    rw [List.map_drop, List.map_drop, hlen, hmap]
  have hsys : effective_system_prompt r1 = effective_system_prompt r2 := by
    unfold effective_system_prompt
    rw [hp]
  have hcur : current_message_of r1 = current_message_of r2 := by
    unfold current_message_of
    rw [hs, hm]
  unfold full_prompt conversation_parts final_segment
  rw [hsys, hsegs, hcur]

/-- C10 witness: two concrete requests differing only in user_id and in a
history timestamp produce the same prompt. -/
theorem C10_prompt_independence_witness :
    full_prompt ⟨"q", [⟨"user", "a", some "2024-01-01"⟩], none, some "alice", none⟩
      = full_prompt ⟨"q", [⟨"user", "a", some "2025-06-30"⟩], none, some "bob", none⟩ :=
  C10_prompt_independence
    ⟨"q", [⟨"user", "a", some "2024-01-01"⟩], none, some "alice", none⟩
    ⟨"q", [⟨"user", "a", some "2025-06-30"⟩], none, some "bob", none⟩
    rfl rfl rfl rfl
